import Mathlib

/-!
Verification of the gofn directive-driven source generator and its runtime
monad library, as a shallow embedding in Lean.

Namespace `Gofn` embeds the scanner (`parser` package: `ParseDir`'s directive
resolution and `exprString`) and the generator (`generator` package:
`generateCurriedFunc`, `paramName`, `exportName`, `shouldGenerate`).
Namespace `GofnMonad` embeds the runtime library (`monad` package: `Result`,
`Pipeline`, `Either`, and the pattern-matching `Option`).

Go string primitives (`strings.HasPrefix`, `strings.TrimPrefix`,
`strings.TrimSpace`, `strings.Repeat`, `strings.Join`) are modelled over
`String.data` so that every definition evaluates by kernel reduction.
Literal braces in generated text are written with the escapes \x7b and \x7d.
-/

namespace Gofn

/-- Model of Go `strings.HasPrefix`. -/
def strHasPrefix (s pre : String) : Bool :=
  pre.data.isPrefixOf s.data

/-- Model of Go `strings.TrimPrefix`: drops `pre` when it is a prefix, else
returns `s` unchanged. -/
def strTrimPrefix (s pre : String) : String :=
  if strHasPrefix s pre then String.mk (s.data.drop pre.data.length) else s

/-- Model of Go `strings.TrimSpace`: removes leading and trailing whitespace. -/
def strTrimSpace (s : String) : String :=
  String.mk (((s.data.dropWhile Char.isWhitespace).reverse.dropWhile
      Char.isWhitespace).reverse)

/-- Model of Go `strings.Repeat s n`. -/
def repeatStr (s : String) : Nat → String
  | 0 => ""
  | k+1 => s ++ repeatStr s k

/-- `parser.ParamInfo` (src/unnamed/part_000): a function parameter or result. -/
structure ParamInfo where
  name : String
  type : String
deriving DecidableEq

/-- `parser.FuncInfo` (src/unnamed/part_000): a scanned function declaration.
`token.Position` is modelled as a string. -/
structure FuncInfo where
  package : String
  name : String
  params : List ParamInfo
  results : List ParamInfo
  directive : String
  pos : String
deriving DecidableEq

/-- `generator.paramName` (src/generator/generate.go:214-219). -/
def paramName (p : ParamInfo) (i : Nat) : String :=
  if p.name ≠ "" then p.name else "p" ++ toString i

/-- `generator.exportName` (src/generator/generate.go:243-250): upper-cases the
first rune. `unicode.ToUpper` is modelled by `Char.toUpper`. -/
def exportName (s : String) : String :=
  if s = "" then s
  else
    match s.data with
    | [] => s
    | c :: cs => String.mk (c.toUpper :: cs)

/-- The result-type rendering at the end of `remainingType`
(src/generator/generate.go:128-138): nothing for zero results, the bare type
for one result, a parenthesized comma-joined tuple for several. -/
def resultsRender : List ParamInfo → String
  | [] => ""
  | [r] => r.type
  | rs => "(" ++ String.intercalate ", " (rs.map (fun r => r.type)) ++ ")"

/-- The parameter loop of `remainingType` (src/generator/generate.go:117-127):
the loop `for j := i; j < n; j++` over `f.Params[j]` is embedded as structural
recursion over the remaining parameters with the running index `j`. -/
def funcChain : List ParamInfo → Nat → String
  | [], _ => ""
  | p :: ps, j => "func(" ++ paramName p j ++ " " ++ p.type ++ ") " ++ funcChain ps (j+1)

/-- `remainingType` of `generateCurriedFunc` (src/generator/generate.go:117-140). -/
def remainingType (f : FuncInfo) (i : Nat) : String :=
  funcChain (f.params.drop i) i ++ resultsRender f.results

/-- The argument loop of `generateCurriedFunc` (src/generator/generate.go:190-199):
a variadic parameter (type starting with `...`) is forwarded as `name...`,
others by bare name. -/
def callArgs : List ParamInfo → Nat → List String
  | [], _ => []
  | p :: ps, i =>
    (if strHasPrefix p.type "..." then paramName p i ++ "..." else paramName p i)
      :: callArgs ps (i+1)

/-- The innermost call line of `generateCurriedFunc`
(src/generator/generate.go:182-200): indentation, `return ` unless the function
has no results, the call with comma-joined arguments. -/
def callLine (f : FuncInfo) : String :=
  repeatStr "    " (f.params.length + 1)
    ++ (if f.results.length = 0 then f.name ++ "(" else "return " ++ f.name ++ "(")
    ++ String.intercalate ", " (callArgs f.params 0) ++ ")\n"

/-- The closure-opening loop of `generateCurriedFunc`
(src/generator/generate.go:168-180): one `return func(...) <rem> \x7b` line per
parameter; the remaining type annotation is written only when non-empty. -/
def openLoop (f : FuncInfo) : List ParamInfo → Nat → String
  | [], _ => ""
  | p :: ps, i =>
    repeatStr "    " (i+1) ++ "return func(" ++ paramName p i ++ " " ++ p.type ++ ") "
      ++ (if remainingType f (i+1) = "" then "" else remainingType f (i+1)) ++ " \x7b\n"
      ++ openLoop f ps (i+1)

/-- The closing-brace loop of `generateCurriedFunc`
(src/generator/generate.go:203-206): `for i := n-1; i >= 0; i--` writes an
indented brace at depth `i+1`; embedded as recursion counting down from `n`. -/
def closeLoop : Nat → String
  | 0 => ""
  | k+1 => repeatStr "    " (k+1) ++ "\x7d\n" ++ closeLoop k

/-- `generator.generateCurriedFunc` (src/generator/generate.go:111-212). The
two `resCount` branches of the zero-parameter case share one conditional; the
first result's type is read with `headD` exactly as the Go code reads
`f.Results[0]` in the branch where results are known non-empty. -/
def generateCurriedFunc (f : FuncInfo) : String :=
  let header := "// Generated curried wrapper for " ++ f.name ++ "\n"
  let wrapperName := exportName f.name ++ "Curried"
  if f.params.length = 0 then
    if f.results.length = 0 then
      header ++ "func " ++ wrapperName ++ "() \x7b" ++ "\n    "
        ++ f.name ++ "()\n" ++ "\x7d\n"
    else
      header ++ "func " ++ wrapperName ++ "() " ++ (f.results.headD ⟨"", ""⟩).type
        ++ " \x7b" ++ "\n    " ++ "return " ++ f.name ++ "()\n" ++ "\x7d\n"
  else
    header ++ "func " ++ wrapperName ++ "() " ++ remainingType f 0 ++ " \x7b\n"
      ++ openLoop f f.params 0
      ++ callLine f
      ++ closeLoop f.params.length
      ++ "\x7d\n"

/-- Spec-side rendering of the claimed return type: the right-nested chain of
single-parameter function types, parameter `i` at nesting depth `i`,
terminating in the rendered result type `res`. -/
def specChainType : List ParamInfo → Nat → String → String
  | [], _, res => res
  | p :: ps, i, res =>
    "func(" ++ paramName p i ++ " " ++ p.type ++ ") " ++ specChainType ps (i+1) res

/-- Spec-side rendering of the claimed wrapper body: a chain of nested
closures, one per parameter in declared order, whose innermost body is the
call of the original function. -/
def specNestedBody (f : FuncInfo) : List ParamInfo → Nat → String
  | [], _ => callLine f
  | p :: ps, i =>
    repeatStr "    " (i+1) ++ "return func(" ++ paramName p i ++ " " ++ p.type ++ ") "
      ++ specChainType ps (i+1) (resultsRender f.results) ++ " \x7b\n"
      ++ specNestedBody f ps (i+1)
      ++ repeatStr "    " (i+1) ++ "\x7d\n"

/-- Proof helper: the closing braces contributed by the parameters `ps`
starting at index `i`, deepest first. -/
def closeFrom : List ParamInfo → Nat → String
  | [], _ => ""
  | _ :: ps, i => closeFrom ps (i+1) ++ (repeatStr "    " (i+1) ++ "\x7d\n")

/-- Spec-side concatenation of a list of rendered lines. -/
def concatList : List String → String
  | [] => ""
  | s :: rest => s ++ concatList rest

/-- One closure-opening line of the generated body, for parameter `p` at
index `i`: the formal-parameter position carries `p.type` verbatim
(including a leading ellipsis for variadic parameters). -/
def closureLine (f : FuncInfo) (i : Nat) (p : ParamInfo) : String :=
  repeatStr "    " (i+1) ++ "return func(" ++ paramName p i ++ " " ++ p.type ++ ") "
    ++ (if remainingType f (i+1) = "" then "" else remainingType f (i+1)) ++ " \x7b\n"

/-- The comment-scanning loop of `parser.ParseDir` (src/unnamed/part_001:44-51
and 63-69): each comment line is stripped of the leading `//` and trimmed; the
first line starting with the marker `gofn:` yields the trimmed remainder and
the loop breaks. The `dir` accumulator's initial value is the empty string,
which is also what an unmatched scan leaves behind. -/
def scanComments : List String → String
  | [] => ""
  | c :: rest =>
    let txt := strTrimSpace (strTrimPrefix c "//")
    if strHasPrefix txt "gofn:" then strTrimSpace (strTrimPrefix txt "gofn:")
    else scanComments rest

/-- Directive resolution of `parser.ParseDir` for one type declaration
(src/unnamed/part_001:39-79): scan the node's own doc comment first; whenever
that leaves `dir` empty, scan the enclosing declaration block's doc comment. -/
def resolveDirective (doc outerDoc : List String) : String :=
  let dir := scanComments doc
  if dir = "" then scanComments outerDoc else dir

/-- Claim-side scan: the first comment line carrying the `gofn:` marker, if
any, with its trimmed remainder — `none` when no line matches. -/
def findGofnLine : List String → Option String
  | [] => none
  | c :: rest =>
    let txt := strTrimSpace (strTrimPrefix c "//")
    if strHasPrefix txt "gofn:" then some (strTrimSpace (strTrimPrefix txt "gofn:"))
    else findGofnLine rest

/-- Claim-side directive resolution as the claim words it: the first directly
attached matching line always wins; the outer block is consulted only when no
directly attached line matches the marker at all. -/
def claimResolveDirective (doc outerDoc : List String) : String :=
  match findGofnLine doc with
  | some d => d
  | none =>
    match findGofnLine outerDoc with
    | some d => d
    | none => ""

/-- The subset of `go/ast` expression shapes distinguished by
`parser.exprString` (src/unnamed/part_001:144-164), plus one constructor
covering every other node kind reaching the `default` branch. The unused
array length of `ast.ArrayType` is omitted since the source ignores it. -/
inductive Expr where
  | Ident (name : String)
  | Ellipsis (elt : Expr)
  | StarExpr (x : Expr)
  | SelectorExpr (x : Expr) (sel : String)
  | ArrayType (elt : Expr)
  | MapType (key : Expr) (value : Expr)
  | FuncType
  | Unsupported (kind : String)
deriving DecidableEq

/-- `parser.exprString` (src/unnamed/part_001:144-164). -/
def exprString : Expr → String
  | .Ident n => n
  | .Ellipsis e => "..." ++ exprString e
  | .StarExpr x => "*" ++ exprString x
  | .SelectorExpr x sel => exprString x ++ "." ++ sel
  | .ArrayType e => "[]" ++ exprString e
  | .MapType k v => "map[" ++ exprString k ++ "]" ++ exprString v
  | .FuncType => "func"
  | .Unsupported _ => "<unknown>"

/-- Claim-side renderer exactly as the claim enumerates it: named, pointer,
qualified, slice/array, map and function shapes as listed, and every other
expression shape — which then includes the ellipsis shape — as the sentinel. -/
def claimExprString : Expr → String
  | .Ident n => n
  | .StarExpr x => "*" ++ claimExprString x
  | .SelectorExpr x sel => claimExprString x ++ "." ++ sel
  | .ArrayType e => "[]" ++ claimExprString e
  | .MapType k v => "map[" ++ claimExprString k ++ "]" ++ claimExprString v
  | .FuncType => "func"
  | _ => "<unknown>"

/-- Whether an expression contains no ellipsis node. -/
def ellipsisFree : Expr → Bool
  | .Ident _ => true
  | .Ellipsis _ => false
  | .StarExpr x => ellipsisFree x
  | .SelectorExpr x _ => ellipsisFree x
  | .ArrayType e => ellipsisFree e
  | .MapType k v => ellipsisFree k && ellipsisFree v
  | .FuncType => true
  | .Unsupported _ => true

/-- Outcome of one `os.Stat` call: a file with its modification time (an
abstract instant, modelled as an integer), a not-exists error, or any other
stat error. -/
inductive StatResult where
  | ok (modTime : Int)
  | notExist
  | statError
deriving DecidableEq

/-- `generator.shouldGenerate` (src/generator/generate.go:29-52). The file
system is a function from path to stat outcome; `ModTime().Before` is `<` on
the modelled instants. The returned pair is (generate, reason); the Go error
return and the timestamp formatting inside the up-to-date reason are elided. -/
def shouldGenerate (stat : String → StatResult) (sourcePath outPath : String) :
    Bool × String :=
  if sourcePath = "" then (true, "no-source-info")
  else
    match stat sourcePath with
    | .notExist => (true, "source-not-found")
    | .statError => (true, "stat-source-failed")
    | .ok srcTime =>
      match stat outPath with
      | .notExist => (true, "no-generated-file")
      | .statError => (true, "stat-out-failed")
      | .ok outTime =>
        if ¬ (outTime < srcTime) then (false, "up-to-date")
        else (true, "outdated")

end Gofn

namespace GofnMonad

/-- A Go `error` interface value: `nil` or some concrete error, modelled by
its message. -/
inductive GoError where
  | nil
  | mk (msg : String)
deriving DecidableEq

/-- `monad.Result` (src/unnamed/part_006:424-427): a value together with an
error that is `nil` on success. -/
structure Result (T : Type) where
  val : T
  err : GoError
deriving DecidableEq

/-- `monad.Ok` (src/unnamed/part_006:429). -/
def Ok {T : Type} (v : T) : Result T := ⟨v, GoError.nil⟩

/-- `monad.Err` (src/unnamed/part_006:430): the value slot holds the zero
value `var z T`, modelled by `default`. -/
def Err {T : Type} [Inhabited T] (e : GoError) : Result T := ⟨default, e⟩

/-- `Result.IsOk` (src/unnamed/part_006:432). -/
def Result.IsOk {T : Type} (r : Result T) : Bool :=
  r.err = GoError.nil

/-- `Result.Unwrap` (src/unnamed/part_006:433). -/
def Result.Unwrap {T : Type} (r : Result T) : T × GoError :=
  (r.val, r.err)

/-- `monad.AndThen` (src/unnamed/part_006:442-447). -/
def AndThen {T U : Type} [Inhabited U] (r : Result T) (f : T → Result U) : Result U :=
  if r.err ≠ GoError.nil then Err r.err else f r.val

/-- `monad.Pipeline` (src/unnamed/part_003:4-6). -/
structure Pipeline (T : Type) where
  res : Result T
deriving DecidableEq

/-- `monad.NewPipeline` (src/unnamed/part_003:8). -/
def NewPipeline {T : Type} (r : Result T) : Pipeline T := ⟨r⟩

/-- `monad.OkP` (src/unnamed/part_003:9). -/
def OkP {T : Type} (v : T) : Pipeline T := NewPipeline (Ok v)

/-- `monad.ErrP` (src/unnamed/part_003:10). -/
def ErrP {T : Type} [Inhabited T] (e : GoError) : Pipeline T := NewPipeline (Err e)

/-- `monad.AndThenP` (src/unnamed/part_003:22-28). -/
def AndThenP {T U : Type} [Inhabited U] (p : Pipeline T) (f : T → Result U) :
    Pipeline U :=
  if !p.res.IsOk then NewPipeline (Err p.res.err)
  else NewPipeline (f (p.res.Unwrap).1)

/-- `monad.Either` (src/unnamed/part_005:6-10). -/
structure Either (L R : Type) where
  left : L
  right : R
  isRight : Bool
deriving DecidableEq

/-- `monad.Left` (src/unnamed/part_005:12-16): the right slot holds the zero
value `var zeroRight R`. -/
def Left {L R : Type} [Inhabited R] (l : L) : Either L R := ⟨l, default, false⟩

/-- `monad.Right` (src/unnamed/part_005:18-22): the left slot holds the zero
value `var zeroLeft L`. -/
def Right {L R : Type} [Inhabited L] (r : R) : Either L R := ⟨default, r, true⟩

/-- `Either.IsLeft` (src/unnamed/part_005:25-27). -/
def Either.IsLeft {L R : Type} (e : Either L R) : Bool := !e.isRight

/-- `Either.IsRight` (src/unnamed/part_005:30-32). -/
def Either.IsRight {L R : Type} (e : Either L R) : Bool := e.isRight

/-- `Either.Swap` (src/unnamed/part_005:129-134). -/
def Either.Swap {L R : Type} [Inhabited L] [Inhabited R] (e : Either L R) :
    Either R L :=
  if e.isRight then Left e.right else Right e.left

/-- A Go pointer `*T`: nil or a reference to a value. -/
inductive Ptr (T : Type) where
  | null
  | mk (deref : T)
deriving DecidableEq

/-- `monad.Option` with pattern-matching support (src/monad/option.go:135-138):
a possibly-nil value pointer plus a wildcard flag. -/
structure Option (T : Type) where
  value : Ptr T
  isWildcard : Bool
deriving DecidableEq

/-- `monad.Some` (src/monad/option.go:141-143). -/
def Some {T : Type} (x : T) : Option T := ⟨Ptr.mk x, false⟩

/-- `monad.None` (src/monad/option.go:146-148). -/
def None (T : Type) : Option T := ⟨Ptr.null, false⟩

/-- `monad.Wildcard` (src/monad/option.go:151-153). -/
def Wildcard (T : Type) : Option T := ⟨Ptr.null, true⟩

/-- `monad.equals` (src/monad/option.go:204-208): Go's dynamic equality
`any(a) == any(b)`, modelled as decidable equality of the field type. -/
def equals {T : Type} [DecidableEq T] (a b : T) : Bool :=
  decide (a = b)

/-- `Option.Match` (src/monad/option.go:193-201). -/
def Option.Match {T : Type} [DecidableEq T] (o : Option T) (value : T) : Bool :=
  if o.isWildcard then true
  else
    match o.value with
    | Ptr.null => false
    | Ptr.mk x => equals x value

end GofnMonad

namespace GofnMonad

/-- C5: a Wildcard pattern matches every value, a None pattern matches no
value (including the zero value), and a Some pattern matches exactly the
values equal to its payload under the field type's equality. -/
theorem option_match_semantics (T : Type) [DecidableEq T] (v x : T) :
    (Wildcard T).Match v = true
    ∧ (None T).Match v = false
    ∧ ((Some x).Match v = true ↔ x = v) := by
  refine ⟨rfl, rfl, ?_⟩
  simp [Option.Match, Some, equals]

/-- Witness for `option_match_semantics` at the field type `Nat`. -/
theorem option_match_semantics_witness :
    (Wildcard Nat).Match 3 = true
    ∧ (None Nat).Match 3 = false
    ∧ ((Some 2).Match 3 = true ↔ 2 = 3) :=
  option_match_semantics Nat 3 2

/-- C7: chaining short-circuits on a failed result — `AndThen`/`AndThenP`
applied to `Err e` yield `Err e` again, independently of the stage function,
and the stage function is applied exactly when the input is successful. -/
theorem result_chain_short_circuit (T U : Type) [Inhabited T] [Inhabited U]
    (e : GoError) (f g : T → Result U) (v : T) (he : e ≠ GoError.nil) :
    AndThen (Err e : Result T) f = Err e
    ∧ AndThen (Err e : Result T) f = AndThen (Err e : Result T) g
    ∧ AndThen (Ok v : Result T) f = f v
    ∧ AndThenP (ErrP e : Pipeline T) f = ErrP e
    ∧ AndThenP (ErrP e : Pipeline T) f = AndThenP (ErrP e : Pipeline T) g
    ∧ AndThenP (OkP v : Pipeline T) f = NewPipeline (f v) := by
  refine ⟨?_, ?_, ?_, ?_, ?_, ?_⟩ <;>
    simp [AndThen, AndThenP, Err, Ok, ErrP, OkP, NewPipeline, Result.IsOk,
      Result.Unwrap, he]

/-- Witness for `result_chain_short_circuit` with the concrete error
`GoError.mk "boom"` and concrete stage functions on `Nat`. -/
theorem result_chain_short_circuit_witness :
    AndThen (Err (GoError.mk "boom") : Result Nat) (fun n => Ok (n + 1))
        = Err (GoError.mk "boom")
    ∧ AndThen (Err (GoError.mk "boom") : Result Nat) (fun n => Ok (n + 1))
        = AndThen (Err (GoError.mk "boom") : Result Nat)
            (fun _ => Err (GoError.mk "other"))
    ∧ AndThen (Ok 7 : Result Nat) (fun n => Ok (n + 1)) = (fun n => Ok (n + 1)) 7
    ∧ AndThenP (ErrP (GoError.mk "boom") : Pipeline Nat) (fun n => Ok (n + 1))
        = ErrP (GoError.mk "boom")
    ∧ AndThenP (ErrP (GoError.mk "boom") : Pipeline Nat) (fun n => Ok (n + 1))
        = AndThenP (ErrP (GoError.mk "boom") : Pipeline Nat)
            (fun _ => Err (GoError.mk "other"))
    ∧ AndThenP (OkP 7 : Pipeline Nat) (fun n => Ok (n + 1))
        = NewPipeline ((fun n => Ok (n + 1)) 7) :=
  result_chain_short_circuit Nat Nat (GoError.mk "boom")
    (fun n => Ok (n + 1)) (fun _ => Err (GoError.mk "other")) 7 (by decide)

/-- C10: swapping an Either twice restores the original value, for values
built with the `Left` and `Right` constructors. -/
theorem either_swap_involutive (L R : Type) [Inhabited L] [Inhabited R]
    (l : L) (r : R) :
    ((Left l : Either L R).Swap).Swap = (Left l : Either L R)
    ∧ ((Right r : Either L R).Swap).Swap = (Right r : Either L R) := by
  constructor <;> simp [Left, Right, Either.Swap]

/-- Witness for `either_swap_involutive` at concrete types and values. -/
theorem either_swap_involutive_witness :
    ((Left 5 : Either Nat Bool).Swap).Swap = (Left 5 : Either Nat Bool)
    ∧ ((Right true : Either Nat Bool).Swap).Swap
        = (Right true : Either Nat Bool) :=
  either_swap_involutive Nat Bool 5 true

end GofnMonad

namespace Gofn

/-- C3 evidence: for a zero-parameter function with two results, the emitted
wrapper declares only the first result's type `int` as its return type, while
the full result-list rendering used everywhere else would be `(int, error)`. -/
theorem curried_zero_param_multi_result_bug :
    generateCurriedFunc ⟨"", "f", [], [⟨"", "int"⟩, ⟨"", "error"⟩], "", ""⟩
        = "// Generated curried wrapper for f\nfunc FCurried() int \x7b\n    return f()\n\x7d\n"
    ∧ resultsRender [⟨"", "int"⟩, ⟨"", "error"⟩] = "(int, error)" := by
  constructor <;> rfl

/-- C4 counterexample: the synthetic name for an anonymous parameter at index
0 is `p0`, not `argument0` as the claim states. -/
theorem paramName_not_argument_indexed :
    paramName ⟨"", "int"⟩ 0 = "p0" ∧ paramName ⟨"", "int"⟩ 0 ≠ "argument0" := by
  constructor
  · rfl
  · decide

/-- C4 amended: an anonymous parameter at zero-based index `i` receives the
deterministic synthetic name `p<i>`; a named parameter keeps its own name. -/
theorem paramName_positional_synthetic (p : ParamInfo) (i : Nat) :
    (p.name = "" → paramName p i = "p" ++ toString i)
    ∧ (p.name ≠ "" → paramName p i = p.name) := by
  constructor <;> intro h <;> simp [paramName, h]

/-- Witness for `paramName_positional_synthetic` at concrete parameters. -/
theorem paramName_positional_synthetic_witness :
    paramName ⟨"", "int"⟩ 7 = "p" ++ toString 7
    ∧ paramName ⟨"xs", "...int"⟩ 7 = "xs" :=
  ⟨(paramName_positional_synthetic ⟨"", "int"⟩ 7).1 rfl,
   (paramName_positional_synthetic ⟨"xs", "...int"⟩ 7).2 (by decide)⟩

/-- C9 counterexample: an ellipsis expression renders as `...` plus the
element rendering, not as the `<unknown>` sentinel that the claim's "every
other expression shape" clause would require. -/
theorem exprString_ellipsis_cex :
    exprString (Expr.Ellipsis (Expr.Ident "int")) = "...int"
    ∧ claimExprString (Expr.Ellipsis (Expr.Ident "int")) = "<unknown>"
    ∧ exprString (Expr.Ellipsis (Expr.Ident "int"))
        ≠ claimExprString (Expr.Ellipsis (Expr.Ident "int")) := by
  refine ⟨rfl, rfl, ?_⟩
  decide

/-- On ellipsis-free expressions the renderer agrees with the claim's
enumeration. -/
theorem exprString_eq_claim_of_ellipsisFree :
    ∀ e : Expr, ellipsisFree e = true → exprString e = claimExprString e := by
  intro e
  induction e with
  | Ident n => intro _; rfl
  | Ellipsis e ih => intro h; simp [ellipsisFree] at h
  | StarExpr x ih =>
    intro h
    simp only [ellipsisFree] at h
    simp [exprString, claimExprString, ih h]
  | SelectorExpr x sel ih =>
    intro h
    simp only [ellipsisFree] at h
    simp [exprString, claimExprString, ih h]
  | ArrayType e ih =>
    intro h
    simp only [ellipsisFree] at h
    simp [exprString, claimExprString, ih h]
  | MapType k v ihk ihv =>
    intro h
    simp only [ellipsisFree, Bool.and_eq_true] at h
    simp [exprString, claimExprString, ihk h.1, ihv h.2]
  | FuncType => intro _; rfl
  | Unsupported kind => intro _; rfl

/-- C9 amended: the renderer is total and renders every listed shape as the
claim enumerates; in addition an ellipsis expression renders as `...` plus
its element rendering, and only the remaining unsupported shapes fall to the
`<unknown>` sentinel. -/
theorem exprString_total_rendering (e : Expr) (kind : String) :
    (ellipsisFree e = true → exprString e = claimExprString e)
    ∧ exprString (Expr.Ellipsis e) = "..." ++ exprString e
    ∧ exprString (Expr.Unsupported kind) = "<unknown>" :=
  ⟨exprString_eq_claim_of_ellipsisFree e, rfl, rfl⟩

/-- Witness for `exprString_total_rendering` at concrete expressions. -/
theorem exprString_total_rendering_witness :
    exprString (Expr.StarExpr (Expr.Ident "T"))
        = claimExprString (Expr.StarExpr (Expr.Ident "T"))
    ∧ exprString (Expr.Ellipsis (Expr.Ident "T")) = "..." ++ exprString (Expr.Ident "T")
    ∧ exprString (Expr.Unsupported "chan") = "<unknown>" :=
  ⟨(exprString_total_rendering (Expr.StarExpr (Expr.Ident "T")) "chan").1 rfl,
   (exprString_total_rendering (Expr.Ident "T") "chan").2.1,
   (exprString_total_rendering (Expr.Ident "T") "chan").2.2⟩

/-- The directive accumulator left by the comment scan is the first matching
line's remainder, or the empty string when no line matches. -/
theorem scanComments_eq_findGofnLine :
    ∀ xs : List String, scanComments xs = (findGofnLine xs).getD "" := by
  intro xs
  induction xs with
  | nil => rfl
  | cons c rest ih =>
    simp only [scanComments, findGofnLine]
    split <;> simp [ih]

/-- C8 counterexample: a directly attached marker line whose directive text is
empty does not stop the search — the code still falls back to the outer
declaration block, against the claim's "stopping at the first match". -/
theorem resolveDirective_direct_empty_cex :
    resolveDirective ["//gofn:"] ["//gofn:record"] = "record"
    ∧ claimResolveDirective ["//gofn:"] ["//gofn:record"] = ""
    ∧ resolveDirective ["//gofn:"] ["//gofn:record"]
        ≠ claimResolveDirective ["//gofn:"] ["//gofn:record"] := by
  refine ⟨?_, ?_, ?_⟩ <;> decide

/-- C8 amended: the first directly attached matching line wins whenever its
trimmed remainder is non-empty; when no direct line matches — or the first
matching line's remainder is empty — resolution falls back to the outer
block's first matching line. -/
theorem resolveDirective_first_match (doc outerDoc : List String) :
    (∀ d : String, findGofnLine doc = some d → d ≠ "" →
      resolveDirective doc outerDoc = d)
    ∧ ((findGofnLine doc = none ∨ findGofnLine doc = some "") →
      resolveDirective doc outerDoc = (findGofnLine outerDoc).getD "") := by
  constructor
  · intro d hd hne
    simp only [resolveDirective]
    rw [scanComments_eq_findGofnLine, hd]
    simp [hne]
  · intro h
    simp only [resolveDirective]
    rw [scanComments_eq_findGofnLine, scanComments_eq_findGofnLine]
    rcases h with h | h <;> simp [h]

/-- Witness for `resolveDirective_first_match` on concrete comment lines. -/
theorem resolveDirective_first_match_witness :
    resolveDirective ["// gofn:record"] ["// gofn:optional"] = "record" :=
  (resolveDirective_first_match ["// gofn:record"] ["// gofn:optional"]).1
    "record" (by decide) (by decide)

/-- C6: under an existing source file, the staleness check skips generation
exactly when the generated file stats successfully with a modification time
not earlier than the source's; absence of the generated file or a stat
failure forces generation. -/
theorem shouldGenerate_skip_iff (stat : String → StatResult)
    (sourcePath outPath : String) (s : Int)
    (hne : sourcePath ≠ "") (hsrc : stat sourcePath = StatResult.ok s) :
    ((shouldGenerate stat sourcePath outPath).1 = false ↔
      ∃ o : Int, stat outPath = StatResult.ok o ∧ s ≤ o) := by
  simp only [shouldGenerate, if_neg hne, hsrc]
  cases hout : stat outPath with
  | notExist => simp
  | statError => simp
  | ok o =>
    by_cases hlt : o < s
    · simp [hlt]
    · simp [hlt]
      omega

/-- A concrete two-file file system for the staleness witness. -/
def statW : String → StatResult := fun p =>
  if p = "pkg/a.go" then StatResult.ok 5
  else if p = "out/a_gen.go" then StatResult.ok 9
  else StatResult.notExist

/-- Witness for `shouldGenerate_skip_iff` on the concrete file system. -/
theorem shouldGenerate_skip_iff_witness :
    (shouldGenerate statW "pkg/a.go" "out/a_gen.go").1 = false ↔
      ∃ o : Int, statW "out/a_gen.go" = StatResult.ok o ∧ (5:Int) ≤ o :=
  shouldGenerate_skip_iff statW "pkg/a.go" "out/a_gen.go" 5 (by decide) (by decide)

end Gofn

namespace Gofn

/-- Writing a string only when it is non-empty writes the string. -/
theorem if_empty_self (s : String) : (if s = "" then "" else s) = s := by
  by_cases h : s = "" <;> simp [h]

/-- The spec-side nested chain equals the source's parameter loop followed by
the result rendering. -/
theorem specChainType_eq_funcChain (ps : List ParamInfo) (i : Nat) (res : String) :
    specChainType ps i res = funcChain ps i ++ res := by
  induction ps generalizing i with
  | nil => simp [specChainType, funcChain, String.empty_append]
  | cons p ps ih => simp [specChainType, funcChain, ih, String.append_assoc]

/-- Counting-down closing braces split along a parameter list. -/
theorem closeLoop_eq_closeFrom_aux (ps : List ParamInfo) (i : Nat) :
    closeLoop (i + ps.length) = closeFrom ps i ++ closeLoop i := by
  induction ps generalizing i with
  | nil => simp [closeFrom, String.empty_append]
  | cons p ps ih =>
    have h1 : i + (p :: ps).length = (i+1) + ps.length := by
      simp [List.length_cons]
      omega
    rw [h1, ih (i+1)]
    simp [closeFrom, closeLoop, String.append_assoc]

/-- The closing-brace loop writes exactly the braces of all parameters. -/
theorem closeLoop_eq_closeFrom (ps : List ParamInfo) :
    closeLoop ps.length = closeFrom ps 0 := by
  have h := closeLoop_eq_closeFrom_aux ps 0
  simpa [closeLoop, String.append_empty] using h

/-- The three body-building loops of the source (closure openers, innermost
call, closing braces) concatenate to the spec-side nested-closure body. -/
theorem body_bridge (f : FuncInfo) :
    ∀ (ps : List ParamInfo) (i : Nat) (tail : String), ps = f.params.drop i →
      openLoop f ps i ++ (callLine f ++ (closeFrom ps i ++ tail))
        = specNestedBody f ps i ++ tail := by
  intro ps
  induction ps with
  | nil =>
    intro i tail h
    simp [openLoop, closeFrom, specNestedBody, String.empty_append]
  | cons p ps ih =>
    intro i tail h
    have hps : ps = f.params.drop (i+1) := by
      have h1 : List.drop 1 (List.drop i f.params) = List.drop (i + 1) f.params :=
        List.drop_drop 1 i f.params
      rw [← h] at h1
      simpa using h1
    have hrem : (if remainingType f (i+1) = "" then "" else remainingType f (i+1))
        = specChainType ps (i+1) (resultsRender f.results) := by
      rw [if_empty_self, specChainType_eq_funcChain]
      simp only [remainingType]
      rw [hps]
    have hIH := ih (i+1) (repeatStr "    " (i+1) ++ ("\x7d\n" ++ tail)) hps
    simp only [openLoop, closeFrom, specNestedBody, String.append_assoc] at hIH ⊢
    rw [hrem, hIH]

/-- The argument loop produces one argument per parameter. -/
theorem callArgs_length (ps : List ParamInfo) (i : Nat) :
    (callArgs ps i).length = ps.length := by
  induction ps generalizing i with
  | nil => rfl
  | cons p ps ih => simp [callArgs, ih]

/-- C1: for a function with at least one parameter, the emitted wrapper is
the zero-argument function named by upper-casing the original name and
appending `Curried`, whose declared return type is the right-nested chain of
single-parameter function types ending in the rendered result type, and whose
body is the matching chain of nested closures whose innermost line calls the
original function with one argument per parameter in declared order. -/
theorem curried_wrapper_structure (f : FuncInfo) (h : f.params ≠ []) :
    generateCurriedFunc f =
      "// Generated curried wrapper for " ++ f.name ++ "\n"
        ++ "func " ++ (exportName f.name ++ "Curried") ++ "() "
        ++ specChainType f.params 0 (resultsRender f.results) ++ " \x7b\n"
        ++ specNestedBody f f.params 0
        ++ "\x7d\n"
    ∧ (callArgs f.params 0).length = f.params.length := by
  have hlen : ¬ f.params.length = 0 := by
    simpa [List.length_eq_zero] using h
  constructor
  · have h0 : f.params = f.params.drop 0 := (List.drop_zero f.params).symm
    have hrem0 : remainingType f 0
        = specChainType f.params 0 (resultsRender f.results) := by
      rw [specChainType_eq_funcChain]
      simp [remainingType]
    have hbody := body_bridge f f.params 0 "\x7d\n" h0
    simp only [generateCurriedFunc, if_neg hlen]
    rw [hrem0, closeLoop_eq_closeFrom]
    simp only [String.append_assoc] at hbody ⊢
    rw [hbody]
  · exact callArgs_length f.params 0

/-- A concrete two-parameter function for the C1 witness. -/
def fWitness : FuncInfo :=
  ⟨"main", "add", [⟨"a", "int"⟩, ⟨"b", "int"⟩], [⟨"", "int"⟩], "curried", ""⟩

/-- Witness for `curried_wrapper_structure` at the concrete function. -/
theorem curried_wrapper_structure_witness :
    generateCurriedFunc fWitness =
      "// Generated curried wrapper for " ++ fWitness.name ++ "\n"
        ++ "func " ++ (exportName fWitness.name ++ "Curried") ++ "() "
        ++ specChainType fWitness.params 0 (resultsRender fWitness.results) ++ " \x7b\n"
        ++ specNestedBody fWitness fWitness.params 0
        ++ "\x7d\n"
    ∧ (callArgs fWitness.params 0).length = fWitness.params.length :=
  curried_wrapper_structure fWitness (by decide)

/-- The argument loop, described per parameter index. -/
theorem callArgs_enumFrom (ps : List ParamInfo) (i : Nat) :
    callArgs ps i = (List.enumFrom i ps).map
      (fun ip => if strHasPrefix ip.2.type "..." then paramName ip.2 ip.1 ++ "..."
                 else paramName ip.2 ip.1) := by
  induction ps generalizing i with
  | nil => rfl
  | cons p ps ih => simp [callArgs, List.enumFrom, ih]

/-- The closure-opening loop, described per parameter index. -/
theorem openLoop_concat (f : FuncInfo) (ps : List ParamInfo) (i : Nat) :
    openLoop f ps i
      = concatList ((List.enumFrom i ps).map (fun ip => closureLine f ip.1 ip.2)) := by
  induction ps generalizing i with
  | nil => rfl
  | cons p ps ih => simp [openLoop, concatList, List.enumFrom, closureLine, ih]

/-- C2: at the innermost call site, a parameter whose rendered type begins
with `...` is forwarded in spread form (`name...`) and every other parameter
by bare name, one argument per parameter in declared order; and each
parameter's own closure line keeps the parameter's rendered type — ellipsis
included — in its formal-parameter position. -/
theorem curried_variadic_forwarding (f : FuncInfo) :
    callArgs f.params 0 = f.params.enum.map
      (fun ip => if strHasPrefix ip.2.type "..." then paramName ip.2 ip.1 ++ "..."
                 else paramName ip.2 ip.1)
    ∧ openLoop f f.params 0
        = concatList (f.params.enum.map (fun ip => closureLine f ip.1 ip.2)) := by
  constructor
  · simpa [List.enum] using callArgs_enumFrom f.params 0
  · simpa [List.enum] using openLoop_concat f f.params 0

end Gofn
